import Mathlib

/-!
Shallow embedding of the MCP v2 Python client
(`packages/mcp-v2-python-client/src/mcp_v2_client/`): the protocol message
model (`types.py`), the exception hierarchy (`exceptions.py`), the client
orchestrator (`client.py`) and the HTTP/WebSocket transports
(`transport/http.py`, `transport/websocket.py`), together with proofs of
the spec's claims about them.

Python dictionaries are modelled as insertion-ordered association lists,
`asyncio.Future` cells as a four-state inductive, and the asynchronous
control flow of `send_request` as explicit state-passing functions, one per
code segment, composed under environment parameters that decide which
awaited outcome occurred.
-/

namespace MCPv2

/-- Structured JSON payloads (`JSONValue = Union[str, int, float, bool, None,
Dict[str, Any], List[Any]]` in `types.py`; numeric payloads in the claims are
integral, so numbers are modelled by `Int`). -/
inductive JSONValue where
  | null : JSONValue
  | bool (b : Bool) : JSONValue
  | num (n : Int) : JSONValue
  | str (s : String) : JSONValue
  | arr (elems : List JSONValue) : JSONValue
  | obj (fields : List (String × JSONValue)) : JSONValue
  deriving Repr, Inhabited

/-! ### Python `dict` as an insertion-ordered association list -/

/-- `d[k]` / `d.get(k)`: the value bound to the first (with `Nodup` keys, the
only) occurrence of `k`. Polymorphic in the key type, since the pending
table uses request-id strings and the future table numeric identities. -/
def dictGet {κ α : Type} [DecidableEq κ] (d : List (κ × α)) (k : κ) : Option α :=
  (d.find? (fun p => p.1 = k)).map (fun p => p.2)

/-- `d[k] = v`: replace the binding of `k` when present (keeping insertion
order), otherwise append a new binding, exactly as a Python dict does. -/
def dictSet {κ α : Type} [DecidableEq κ] (d : List (κ × α)) (k : κ) (v : α) :
    List (κ × α) :=
  if (d.find? (fun p => p.1 = k)).isSome then
    d.map (fun p => if p.1 = k then (k, v) else p)
  else
    d ++ [(k, v)]

/-- Every binding of `k` removed (with `Nodup` keys: the one binding). -/
def dictRemove {κ α : Type} [DecidableEq κ] (d : List (κ × α)) (k : κ) :
    List (κ × α) :=
  d.filter (fun p => p.1 ≠ k)

/-- `d.pop(k, None)`: the removed value (if any) together with the remaining
dictionary. -/
def dictPop {κ α : Type} [DecidableEq κ] (d : List (κ × α)) (k : κ) :
    Option α × List (κ × α) :=
  (dictGet d k, dictRemove d k)

/-! ### `types.py`: the protocol message model -/

/-- `EventType` (`types.py`, lines 13-23): the eight-value enumeration. -/
inductive EventType where
  | REQUEST_SENT
  | RESPONSE_RECEIVED
  | ERROR_OCCURRED
  | CONNECTION_OPENED
  | CONNECTION_CLOSED
  | CONNECTION_ERROR
  | CONTEXT_UPDATED
  | METRICS_COLLECTED
  deriving Repr, DecidableEq, Inhabited

/-- The string value of each `EventType` member. -/
def EventType.value : EventType → String
  | .REQUEST_SENT => "request.sent"
  | .RESPONSE_RECEIVED => "response.received"
  | .ERROR_OCCURRED => "error.occurred"
  | .CONNECTION_OPENED => "connection.opened"
  | .CONNECTION_CLOSED => "connection.closed"
  | .CONNECTION_ERROR => "connection.error"
  | .CONTEXT_UPDATED => "context.updated"
  | .METRICS_COLLECTED => "metrics.collected"

namespace ErrorCodes

/-- `ErrorCodes.PARSE_ERROR` -/
def PARSE_ERROR : Int := -32700
/-- `ErrorCodes.INVALID_REQUEST` -/
def INVALID_REQUEST : Int := -32600
/-- `ErrorCodes.METHOD_NOT_FOUND` -/
def METHOD_NOT_FOUND : Int := -32601
/-- `ErrorCodes.INVALID_PARAMS` -/
def INVALID_PARAMS : Int := -32602
/-- `ErrorCodes.INTERNAL_ERROR` -/
def INTERNAL_ERROR : Int := -32603
/-- `ErrorCodes.CONTEXT_INVALID` -/
def CONTEXT_INVALID : Int := -32100
/-- `ErrorCodes.CONTEXT_EXPIRED` -/
def CONTEXT_EXPIRED : Int := -32101
/-- `ErrorCodes.TRANSPORT_ERROR` -/
def TRANSPORT_ERROR : Int := -32200
/-- `ErrorCodes.AUTHENTICATION_ERROR` -/
def AUTHENTICATION_ERROR : Int := -32300
/-- `ErrorCodes.AUTHORIZATION_ERROR` -/
def AUTHORIZATION_ERROR : Int := -32301
/-- `ErrorCodes.RATE_LIMIT_ERROR` -/
def RATE_LIMIT_ERROR : Int := -32400
/-- `ErrorCodes.RESOURCE_NOT_FOUND` -/
def RESOURCE_NOT_FOUND : Int := -32404
/-- `ErrorCodes.RESOURCE_CONFLICT` -/
def RESOURCE_CONFLICT : Int := -32409
/-- `ErrorCodes.VALIDATION_ERROR` -/
def VALIDATION_ERROR : Int := -32422

end ErrorCodes

/-- `ContextInfo` (`types.py`, lines 50-64). All fields are `Optional` with
default `None`; datetimes are modelled as abstract `Nat` ticks. -/
structure ContextInfo where
  session_id : Option String := none
  user_id : Option String := none
  client_id : Option String := none
  capabilities : Option (List (String × Bool)) := none
  metadata : Option (List (String × JSONValue)) := none
  ttl : Option Int := none
  priority : Option Int := none
  tags : Option (List String) := none
  deriving Repr, Inhabited

/-- `MCPError` (`types.py`, lines 67-78). -/
structure MCPError where
  code : Int
  message : String
  data : Option JSONValue := none
  type : Option String := none
  timestamp : Nat := 0
  deriving Repr, Inhabited

/-- `MCPRequest` (`types.py`, lines 81-95). -/
structure MCPRequest where
  id : String
  jsonrpc : String := "2.0"
  method : String
  params : Option JSONValue := none
  version : String := "2.0"
  timestamp : Nat := 0
  metadata : Option (List (String × JSONValue)) := none
  context : Option ContextInfo := none
  deriving Repr, Inhabited

/-- `MCPResponse` (`types.py`, lines 98-117). Nothing constrains `result` and
`error` beyond being independently optional. -/
structure MCPResponse where
  id : String
  jsonrpc : String := "2.0"
  result : Option JSONValue := none
  error : Option MCPError := none
  version : String := "2.0"
  timestamp : Nat := 0
  metadata : Option (List (String × JSONValue)) := none
  context : Option ContextInfo := none
  deriving Repr, Inhabited

/-- `MCPResponse.is_success` (`types.py`, lines 110-113): defined as
`self.error is None`. -/
def MCPResponse.is_success (r : MCPResponse) : Bool :=
  r.error.isNone

/-- `EventData` (`types.py`, lines 120-132). -/
structure EventData where
  type : EventType
  timestamp : Nat := 0
  data : Option JSONValue := none
  source : Option String := none
  target : Option String := none
  metadata : Option (List (String × JSONValue)) := none
  deriving Repr, Inhabited

/-- `TransportConfig` (`types.py`, lines 135-147). -/
structure TransportConfig where
  type : String
  endpoint : String
  options : Option (List (String × JSONValue)) := none
  timeout : Int := 30
  retry_attempts : Int := 3
  enable_metrics : Bool := true
  deriving Repr, Inhabited

/-- `ClientConfig` (`types.py`, lines 150-164). -/
structure ClientConfig where
  client_id : String
  version : String := "2.0"
  transport : TransportConfig
  default_context : Option ContextInfo := none
  enable_caching : Bool := true
  enable_metrics : Bool := true
  enable_logging : Bool := true
  metadata : Option (List (String × JSONValue)) := none
  deriving Repr, Inhabited

/-! ### `exceptions.py` -/

/-- `MCPClientException` (`exceptions.py`, lines 10-26). Python does not
enforce the `str` annotation on `error_type`, and `_handle_message` passes
`response.error.type` (an `Optional[str]`) straight through, so the field is
an `Option String` whose default is the string the source declares. `cause`
carries the rendered form of the chained exception; `py_class` records the
runtime class name (used by `type(error).__name__` in `_handle_error`). -/
structure MCPClientException where
  message : String
  error_code : Int := ErrorCodes.INTERNAL_ERROR
  error_type : Option String := some "INTERNAL_ERROR"
  cause : Option String := none
  py_class : String := "MCPClientException"
  deriving Repr, Inhabited

/-- `MCPClientException.__str__` (`exceptions.py`, lines 25-26):
`[{error_type}:{error_code}] {message}` (a `None` type prints as `None`). -/
def MCPClientException.toString (e : MCPClientException) : String :=
  "[" ++ (match e.error_type with | some t => t | none => "None") ++ ":"
    ++ Int.repr e.error_code ++ "] " ++ e.message

/-- `MCPTransportException` (`exceptions.py`, lines 29-42): constructs the
base exception with `TRANSPORT_ERROR` code and type. -/
def MCPTransportException (message : String) : MCPClientException :=
  { message := message
    error_code := ErrorCodes.TRANSPORT_ERROR
    error_type := some "TRANSPORT_ERROR"
    py_class := "MCPTransportException" }

/-! ### `client.py`: the orchestrator state -/

/-- An `asyncio.Future[MCPResponse]` cell: single-assignment, observed by the
caller awaiting it. `set_result` / `set_exception` on an already-done future
would raise `InvalidStateError`; in `BaseMCPClient` every resolution is
guarded by popping the pending entry first, so done cells are never
re-assigned on any reachable path. -/
inductive FutureCell where
  | unresolved
  | result (r : MCPResponse)
  | exception (e : MCPClientException)
  | cancelled
  deriving Repr, Inhabited

/-- `Future.done()`: true for every state but pending. -/
def FutureCell.done : FutureCell → Bool
  | .unresolved => false
  | _ => true

/-- What `await future` (through `asyncio.wait_for`) yields to the caller once
the cell is done: the result, the raised exception, or `CancelledError`. -/
inductive CallerOutcome where
  | ok (r : MCPResponse)
  | exc (e : MCPClientException)
  | cancelledError
  deriving Repr, Inhabited

/-- Observing a future cell from the awaiting caller. -/
def awaitFuture : FutureCell → Option CallerOutcome
  | .unresolved => none
  | .result r => some (.ok r)
  | .exception e => some (.exc e)
  | .cancelled => some .cancelledError

/-- Externally visible actions of the client and its transport: calls into
the transport, invocations of registered listeners, log lines, and the
sleeps tenacity inserts between HTTP retry attempts. Listeners are
identified by opaque numbers. -/
inductive Effect where
  | transportSend (req : MCPRequest)
  | transportPost (req : MCPRequest)
  | transportDisconnect
  | transportClose
  | listenerCall (listener : Nat) (e : EventData)
  | onMessageHook (response : MCPResponse)
  | onErrorHook (py_class : String) (msg : String)
  | sleepSeconds (n : Nat)
  | logWarning (msg : String)
  | logError (msg : String)
  | logInfo (msg : String)
  | logDebug (msg : String)
  deriving Repr, Inhabited

/-- The `self._metrics` dict (`client.py`, lines 120-128), with its fixed
keys as fields. -/
structure Metrics where
  client_id : String
  version : String
  start_time : Nat := 0
  requests_total : Nat := 0
  responses_total : Nat := 0
  errors_total : Nat := 0
  connection_status : String := "disconnected"
  deriving Repr, Inhabited

/-- The mutable state of a `BaseMCPClient` (`client.py`, lines 105-131),
together with the transport's own liveness flag (each transport keeps a
`_connected` field consulted by `transport.is_connected()`). Futures live in
a side table keyed by the order of their allocation; `pending_requests` maps
request ids to future keys, mirroring
`Dict[str, asyncio.Future[MCPResponse]]`. -/
structure ClientState where
  config : ClientConfig
  current_context : Option ContextInfo := none
  connected : Bool := false
  closed : Bool := false
  transport_connected : Bool := false
  event_listeners : List (EventType × List Nat) := []
  event_queue : List EventData := []
  pending_requests : List (String × Nat) := []
  futures : List (Nat × FutureCell) := []
  next_future : Nat := 0
  metrics : Metrics
  deriving Repr, Inhabited

/-- `BaseMCPClient.is_connected` (`client.py`, lines 216-218): the client's
own flag conjoined with the transport's liveness check. -/
def ClientState.is_connected (s : ClientState) : Bool :=
  s.connected && s.transport_connected

/-- The maximum size of `self._event_queue`: the constructor (`client.py`,
line 114) builds `asyncio.Queue()` with no `maxsize` argument, whose default
is `0`. -/
def eventQueueMaxsize : Nat := 0

/-- `asyncio.Queue.full()`: a queue with `maxsize <= 0` is never full,
otherwise full when the current size reaches `maxsize`. -/
def queueFull (len maxsize : Nat) : Bool :=
  0 < maxsize && maxsize ≤ len

/-- The listeners registered for one event type
(`self._event_listeners.get(event_type, [])`). -/
def listenersFor (s : ClientState) (t : EventType) : List Nat :=
  match s.event_listeners.find? (fun p => p.1 = t) with
  | some p => p.2
  | none => []

/-- `BaseMCPClient._emit_event` (`client.py`, lines 354-374): build the
`EventData`, `put_nowait` it onto the queue (dropping it with a warning on
`QueueFull`), then call every listener registered for the type. -/
def emitEvent (s : ClientState) (event_type : EventType)
    (data : Option JSONValue) : ClientState × List Effect :=
  let event_data : EventData :=
    { type := event_type, data := data, source := some s.config.client_id }
  let queueEffects :=
    if queueFull s.event_queue.length eventQueueMaxsize then
      (s.event_queue, [Effect.logWarning "Event queue is full, dropping event"])
    else
      (s.event_queue ++ [event_data], ([] : List Effect))
  ({ s with event_queue := queueEffects.1 },
   queueEffects.2
     ++ (listenersFor s event_type).map (fun l => Effect.listenerCall l event_data))

/-- An arbitrary Python exception as `_handle_error` receives it: either one
of the library's own `MCPClientException`s or a foreign exception (such as an
`aiohttp` connection error or a JSON decode error), of which only the class
name and the `str()` rendering are observable. -/
inductive PyException where
  | mcp (e : MCPClientException)
  | other (py_class : String) (msg : String)
  deriving Repr, Inhabited

/-- `str(error)`. -/
def PyException.str : PyException → String
  | .mcp e => e.toString
  | .other _ msg => msg

/-- `type(error).__name__`. -/
def PyException.className : PyException → String
  | .mcp e => e.py_class
  | .other c _ => c

/-- `BaseMCPClient._handle_error` (`client.py`, lines 342-352): log, bump
`errors_total` when metrics are enabled, and emit `ERROR_OCCURRED`. -/
def handleError (s : ClientState) (error : PyException) :
    ClientState × List Effect :=
  let s1 :=
    if s.config.enable_metrics then
      { s with metrics := { s.metrics with errors_total := s.metrics.errors_total + 1 } }
    else s
  let emitted := emitEvent s1 EventType.ERROR_OCCURRED
    (some (.obj [("error", .str error.str), ("error_type", .str error.className)]))
  (emitted.1, Effect.logError ("Client error: " ++ error.str) :: emitted.2)

/-- The cell `_handle_message` assigns for a given response: `set_result` on
success, otherwise `set_exception` with the error's message/code/type (with
the source's fallbacks when `response.error` is `None`). -/
def responseOutcome (response : MCPResponse) : FutureCell :=
  if response.is_success then .result response
  else
    .exception
      { message := match response.error with
          | some e => e.message
          | none => "Unknown error"
        error_code := match response.error with
          | some e => e.code
          | none => -1
        error_type := match response.error with
          | some e => e.type
          | none => some "UNKNOWN" }

/-- `BaseMCPClient._handle_message` (`client.py`, lines 322-340): pop the
pending entry for the response id; when present resolve its future with
`responseOutcome`, otherwise leave the state untouched and log a warning. -/
def handleMessage (s : ClientState) (response : MCPResponse) :
    ClientState × List Effect :=
  match dictPop s.pending_requests response.id with
  | (some fid, remaining) =>
      ({ s with
          pending_requests := remaining
          futures := dictSet s.futures fid (responseOutcome response) }, [])
  | (none, _) =>
      (s, [Effect.logWarning
        ("Received response for unknown request ID: " ++ response.id)])

/-- `None`-aware rendering used by the `.dict()` encodings below. -/
def optStrJSON : Option String → JSONValue
  | some s => .str s
  | none => .null

/-- `ContextInfo.dict()`: the pydantic field dictionary as a JSON object. -/
def ContextInfo.dict (c : ContextInfo) : JSONValue :=
  .obj [("session_id", optStrJSON c.session_id),
        ("user_id", optStrJSON c.user_id),
        ("client_id", optStrJSON c.client_id),
        ("capabilities",
          match c.capabilities with
          | some caps => .obj (caps.map (fun p => (p.1, .bool p.2)))
          | none => .null),
        ("metadata", match c.metadata with | some m => .obj m | none => .null),
        ("ttl", match c.ttl with | some n => .num n | none => .null),
        ("priority", match c.priority with | some n => .num n | none => .null),
        ("tags",
          match c.tags with
          | some ts => .arr (ts.map .str)
          | none => .null)]

/-- `MCPRequest.dict()`: the pydantic field dictionary as a JSON object
(timestamps rendered as numbers). -/
def MCPRequest.dict (r : MCPRequest) : JSONValue :=
  .obj [("id", .str r.id), ("jsonrpc", .str r.jsonrpc),
        ("method", .str r.method),
        ("params", r.params.getD .null),
        ("version", .str r.version), ("timestamp", .num r.timestamp),
        ("metadata", match r.metadata with | some m => .obj m | none => .null),
        ("context", match r.context with | some c => c.dict | none => .null)]

/-- `MCPError.dict()` as a JSON object. -/
def MCPError.dict (e : MCPError) : JSONValue :=
  .obj [("code", .num e.code), ("message", .str e.message),
        ("data", e.data.getD .null),
        ("type", optStrJSON e.type), ("timestamp", .num e.timestamp)]

/-- `MCPResponse.dict()` as a JSON object. -/
def MCPResponse.dict (r : MCPResponse) : JSONValue :=
  .obj [("id", .str r.id), ("jsonrpc", .str r.jsonrpc),
        ("result", r.result.getD .null),
        ("error", match r.error with | some e => e.dict | none => .null),
        ("version", .str r.version), ("timestamp", .num r.timestamp),
        ("metadata", match r.metadata with | some m => .obj m | none => .null),
        ("context", match r.context with | some c => c.dict | none => .null)]

/-- Python `not s.strip()`: stripping leaves the empty string exactly when
every character of `s` is whitespace (vacuously true for the empty
string), modelled directly on the character list. -/
def strBlank (s : String) : Bool :=
  s.data.all Char.isWhitespace

/-- `BaseMCPClient._validate_request` (`client.py`, lines 299-306): raise on
empty/blank id (`not request.id or not request.id.strip()`), then
empty/blank method likewise, then on a disconnected client, in the
source's order. All three raises build a bare `MCPClientException(message)`,
so they carry the default `INTERNAL_ERROR` code and type. -/
def validate_request (s : ClientState) (request : MCPRequest) :
    Except MCPClientException Unit :=
  if request.id = "" ∨ strBlank request.id = true then
    .error { message := "Request ID cannot be null or empty" }
  else if request.method = "" ∨ strBlank request.method = true then
    .error { message := "Request method cannot be null or empty" }
  else if s.is_connected = false then
    .error { message := "Client is not connected" }
  else
    .ok ()

/-- `BaseMCPClient._enrich_request` (`client.py`, lines 308-320): attach the
client's current context when the request has none, then
`metadata.update({"client_id": ..., "client_version": ...})`
unconditionally. The source mutates the caller's request object in place;
the returned value is the state of that same object afterwards. -/
def enrich_request (s : ClientState) (request : MCPRequest) : MCPRequest :=
  let request1 :=
    if request.context.isNone && s.current_context.isSome then
      { request with context := s.current_context }
    else request
  let md := request1.metadata.getD []
  { request1 with
      metadata := some
        (dictSet (dictSet md "client_id" (.str s.config.client_id))
          "client_version" (.str s.config.version)) }

/-- The prefix of `BaseMCPClient.send_request` (`client.py`, lines 157-171):
validate, enrich, allocate a fresh future, register it under the request id,
bump `requests_total` when metrics are enabled, emit `REQUEST_SENT`, and
hand the request to `transport.send`. A validation failure raises before
any of that. Returns the post-state, the effects, the enriched request and
the key of the allocated future. -/
def send_request_start (s : ClientState) (request : MCPRequest) :
    Except MCPClientException (ClientState × List Effect × MCPRequest × Nat) :=
  match validate_request s request with
  | .error e => .error e
  | .ok () =>
      let request1 := enrich_request s request
      let fid := s.next_future
      let s1 := { s with
        pending_requests := dictSet s.pending_requests request1.id fid
        futures := dictSet s.futures fid .unresolved
        next_future := fid + 1 }
      let s2 :=
        if s1.config.enable_metrics then
          { s1 with metrics :=
              { s1.metrics with requests_total := s1.metrics.requests_total + 1 } }
        else s1
      let emitted := emitEvent s2 EventType.REQUEST_SENT (some request1.dict)
      .ok (emitted.1, emitted.2 ++ [Effect.transportSend request1], request1, fid)

/-- The `except asyncio.TimeoutError` arm of `send_request` (`client.py`,
lines 183-187): pop the pending entry first, then build the timeout
exception, route it through `_handle_error`, and re-raise it. Returns the
post-state, the effects, and the exception the caller receives. -/
def send_request_onTimeout (s : ClientState) (requestId : String) :
    ClientState × List Effect × MCPClientException :=
  let popped := dictPop s.pending_requests requestId
  let s1 := { s with pending_requests := popped.2 }
  let error : MCPClientException :=
    { message := "Request timed out after " ++ Int.repr s.config.transport.timeout
        ++ " seconds" }
  let handled := handleError s1 (.mcp error)
  (handled.1, handled.2, error)

/-- The tail of `send_request` after `transport.send` has delivered the wire
response `wire` to `_handle_message` (`client.py`, lines 173-191): run the
handler, then observe the future at key `fid`. A `result` cell is the value
`await asyncio.wait_for` returns: bump `responses_total`, emit
`RESPONSE_RECEIVED`, return it. An `exception` cell makes the await raise:
the generic `except` arm pops the entry again (a no-op, the handler already
removed it), routes through `_handle_error`, and re-raises. A `cancelled`
cell raises `CancelledError`, which is not an `Exception` and propagates
past the handlers. `none` means the caller is still suspended. -/
def send_request_finish (s : ClientState) (requestId : String) (fid : Nat)
    (wire : MCPResponse) :
    Option (ClientState × List Effect × CallerOutcome) :=
  let handled := handleMessage s wire
  match dictGet handled.1.futures fid with
  | some (.result response) =>
      let s2 :=
        if handled.1.config.enable_metrics then
          { handled.1 with metrics :=
              { handled.1.metrics with
                  responses_total := handled.1.metrics.responses_total + 1 } }
        else handled.1
      let emitted := emitEvent s2 EventType.RESPONSE_RECEIVED (some response.dict)
      some (emitted.1, handled.2 ++ emitted.2, .ok response)
  | some (.exception e) =>
      let popped := dictPop handled.1.pending_requests requestId
      let s2 := { handled.1 with pending_requests := popped.2 }
      let errHandled := handleError s2 (.mcp e)
      some (errHandled.1, handled.2 ++ errHandled.2, .exc e)
  | some .cancelled => some (handled.1, handled.2, .cancelledError)
  | some .unresolved => none
  | none => none

/-- Processing a batch of inbound responses through `_handle_message`, in
arrival order. -/
def processResponses (s : ClientState) (rs : List MCPResponse) : ClientState :=
  rs.foldl (fun st r => (handleMessage st r).1) s

/-- `BaseMCPClient._update_metric` (`client.py`, lines 376-379) specialised
to the `connection_status` key, the only one the source passes. -/
def update_connection_status (s : ClientState) (value : String) : ClientState :=
  if s.config.enable_metrics then
    { s with metrics := { s.metrics with connection_status := value } }
  else s

/-- The `on_disconnect` hook installed by `_setup_transport_handlers`
(`client.py`, lines 144-147): clear the client's connected flag, set the
`connection_status` metric, emit `CONNECTION_CLOSED`. -/
def transport_on_disconnect (s : ClientState) : ClientState × List Effect :=
  let s1 := update_connection_status { s with connected := false } "disconnected"
  emitEvent s1 EventType.CONNECTION_CLOSED (some (.obj [("message", .str "Connection closed")]))

/-- `BaseMCPClient.disconnect` (`client.py`, lines 210-214):
`transport.disconnect()` (which clears the transport's own flag and invokes
the `on_disconnect` hook — both concrete transports do), then clear the
client flag and log. -/
def client_disconnect (s : ClientState) : ClientState × List Effect :=
  let hooked := transport_on_disconnect { s with transport_connected := false }
  ({ hooked.1 with connected := false },
   Effect.transportDisconnect :: hooked.2 ++ [Effect.logInfo "Disconnected from MCP server"])

/-- `BaseMCPClient.close` (`client.py`, lines 275-297): return immediately
when already closed; otherwise mark closed, best-effort disconnect
(`disconnectOk = false` models `transport.disconnect` raising, in which case
the exception is logged and swallowed), cancel every not-done future reached
from the pending table, clear the table and the listener registry, and close
the transport. -/
def close (s : ClientState) (disconnectOk : Bool) : ClientState × List Effect :=
  if s.closed then (s, [])
  else
    let s1 := { s with closed := true }
    let afterDisconnect :=
      if disconnectOk then client_disconnect s1
      else (s1, [Effect.transportDisconnect,
                 Effect.logWarning "Error during disconnect"])
    let s2 := afterDisconnect.1
    let futures1 := s2.futures.map (fun p =>
      if (s2.pending_requests.any (fun q => q.2 = p.1)) && !p.2.done then
        (p.1, FutureCell.cancelled)
      else p)
    let s3 := { s2 with
      futures := futures1
      pending_requests := []
      event_listeners := [] }
    (s3, afterDisconnect.2 ++ [Effect.transportClose])

/-! ### `transport/http.py`: the HTTP transport -/

/-- The outcome of one `session.post` round trip inside
`HttpTransport.send`: a transient network failure raised by `aiohttp`, a
non-200 status, or a 200 response whose body decodes to `response`. -/
inductive AttemptOutcome where
  | netError (msg : String)
  | badStatus (status : Nat)
  | ok (response : MCPResponse)
  deriving Repr, Inhabited

/-- The undecorated body of `HttpTransport.send` (`http.py`, lines 77-106).
The not-connected guard raises before the `try`, so no `on_error` fires for
it. Inside the `try`, a 200 body is decoded and handed to the `on_message`
hook (the client's `_handle_message`); a non-200 status raises
`MCPTransportException("HTTP request failed: ...")` which the `except` arm
catches like a network error: it invokes `on_error` (the client's
`_handle_error`) with the original exception and re-raises
`MCPTransportException("Failed to send request")`. -/
def httpSendAttempt (s : ClientState) (request : MCPRequest)
    (out : AttemptOutcome) :
    ClientState × List Effect × Except MCPClientException Unit :=
  if !s.transport_connected then
    (s, [], .error (MCPTransportException "Transport not connected"))
  else
    match out with
    | .ok response =>
        let handled := handleMessage s response
        (handled.1,
         Effect.transportPost request :: Effect.onMessageHook response :: handled.2,
         .ok ())
    | .badStatus status =>
        let original := MCPTransportException
          ("HTTP request failed: " ++ Nat.repr status)
        let handled := handleError s (.mcp original)
        (handled.1,
         Effect.transportPost request
           :: Effect.onErrorHook "MCPTransportException" original.toString
           :: handled.2,
         .error (MCPTransportException "Failed to send request"))
    | .netError msg =>
        let handled := handleError s (.other "ClientConnectionError" msg)
        (handled.1,
         Effect.transportPost request
           :: Effect.onErrorHook "ClientConnectionError" msg :: handled.2,
         .error (MCPTransportException "Failed to send request"))

/-- The attempt bound in the `@retry` decorator on `HttpTransport.send`
(`http.py`, line 73): `stop_after_attempt(3)`, a literal, not the
configuration's `retry_attempts`. -/
def sendStopAfterAttempt : Nat := 3

/-- `tenacity.wait_exponential(multiplier, min, max)` evaluated after the
`attempt`-th failed attempt (1-based):
`clamp(multiplier * 2^(attempt-1))` into `[min, max]`. -/
def waitExponential (multiplier minWait maxWait attempt : Nat) : Nat :=
  max (max 0 minWait) (min (multiplier * 2 ^ (attempt - 1)) maxWait)

/-- The tenacity retry loop around `httpSendAttempt`: run attempts until one
succeeds or `fuel` attempts have been used; between a failed attempt and the
next one sleep `wait_exponential(multiplier=1, min=1, max=10)`. With
`reraise=True` the final attempt's exception is the one surfaced. `outs`
supplies each attempt's environment outcome in order. -/
def httpSendRetry (request : MCPRequest) :
    Nat → Nat → ClientState → List AttemptOutcome →
    ClientState × List Effect × Except MCPClientException Unit
  | _, 0, s, _ => (s, [], .error (MCPTransportException "Failed to send request"))
  | attempt, fuel + 1, s, outs =>
      let out := outs.headD (AttemptOutcome.netError "connection lost")
      let step := httpSendAttempt s request out
      match step.2.2 with
      | .ok () => (step.1, step.2.1, .ok ())
      | .error e =>
          if fuel = 0 then (step.1, step.2.1, .error e)
          else
            let wait := waitExponential 1 1 10 attempt
            let recur := httpSendRetry request (attempt + 1) fuel step.1 outs.tail
            (recur.1, step.2.1 ++ Effect.sleepSeconds wait :: recur.2.1, recur.2.2)

/-- `HttpTransport.send` as decorated (`http.py`, lines 72-106): the retry
loop started at attempt 1 with the hardcoded attempt budget. -/
def HttpTransport.send (s : ClientState) (request : MCPRequest)
    (outs : List AttemptOutcome) :
    ClientState × List Effect × Except MCPClientException Unit :=
  httpSendRetry request 1 sendStopAfterAttempt s outs

/-! ### `transport/websocket.py`: the receive loop -/

/-- One inbound WebSocket frame: either its text decodes (by `json.loads`
plus `MCPResponse(**data)`) to a response, or decoding raises. -/
inductive Frame where
  | decodable (response : MCPResponse)
  | garbage (raw : String)
  deriving Repr, Inhabited

/-- Why the `async for` over the socket ended: the socket closed normally, a
`WebSocketException` was raised by the iterator, or the task was cancelled
at a suspension point. -/
inductive LoopExit where
  | socketClosed
  | wsError (msg : String)
  | cancelled
  deriving Repr, Inhabited

/-- The per-frame body of `WebSocketTransport._receive_messages`
(`websocket.py`, lines 108-119): decode and hand to `on_message`; on a
decode failure log and invoke `on_error`, then continue with the next
frame. -/
def processFrame (s : ClientState) (frame : Frame) : ClientState × List Effect :=
  match frame with
  | .decodable response =>
      let handled := handleMessage s response
      (handled.1, Effect.onMessageHook response :: handled.2)
  | .garbage raw =>
      let handled := handleError s (.other "JSONDecodeError" ("Expecting value: " ++ raw))
      (handled.1,
       Effect.logError ("Failed to parse WebSocket message: " ++ raw)
         :: Effect.onErrorHook "JSONDecodeError" ("Expecting value: " ++ raw)
         :: handled.2)

/-- One iteration of the `async for` in `_receive_messages`, threading the
client state and accumulating the emitted effects. -/
def receiveLoopBody (acc : ClientState × List Effect) (f : Frame) :
    ClientState × List Effect :=
  let st := processFrame acc.1 f
  (st.1, acc.2 ++ st.2)

/-- `WebSocketTransport._receive_messages` (`websocket.py`, lines 102-128)
over the frames received before the loop ended and the exit cause. The
early `return` when `self._websocket is None` precedes the `try`, so only
that path skips the `finally`; on every loop exit path — normal close,
`WebSocketException` (which invokes `on_error`), or cancellation — the
`finally` clause clears the transport's connected flag. -/

def WebSocketTransport.receiveMessages (s : ClientState) (hasSocket : Bool)
    (frames : List Frame) (exit : LoopExit) : ClientState × List Effect :=
  if !hasSocket then (s, [])
  else
    let body := frames.foldl receiveLoopBody (s, ([] : List Effect))
    let afterExit :=
      match exit with
      | .socketClosed => body
      | .wsError msg =>
          let handled := handleError body.1 (.other "WebSocketException" msg)
          (handled.1,
           body.2 ++ Effect.logError ("WebSocket error: " ++ msg)
             :: Effect.onErrorHook "WebSocketException" msg :: handled.2)
      | .cancelled =>
          (body.1, body.2 ++ [Effect.logDebug "WebSocket receive task cancelled"])
    ({ afterExit.1 with transport_connected := false }, afterExit.2)

/-! ### Observation helpers and concrete fixtures -/

/-- The responses delivered through the `on_message` hook, in order, read off
an effect trace. -/
def framesDelivered (effs : List Effect) : List MCPResponse :=
  effs.filterMap (fun e =>
    match e with
    | .onMessageHook r => some r
    | _ => none)

/-- The response a frame decodes to, when it decodes. -/
def frameResponse : Frame → Option MCPResponse
  | .decodable r => some r
  | .garbage _ => none

/-- How many decode failures were reported through the `on_error` hook. -/
def decodeErrorCount (effs : List Effect) : Nat :=
  (effs.filter (fun e =>
    match e with
    | .onErrorHook c _ => c = "JSONDecodeError"
    | _ => false)).length

/-- How many of the received frames fail to decode. -/
def garbageCount (frames : List Frame) : Nat :=
  (frames.filter (fun f =>
    match f with
    | .garbage _ => true
    | _ => false)).length

/-- Metadata lookup on a request (an absent metadata dict reads as empty). -/
def requestMetaGet (r : MCPRequest) (k : String) : Option JSONValue :=
  dictGet (r.metadata.getD []) k

/-- The spec's claimed response invariant: exactly one of `result` and
`error` is set. -/
def exactlyOneOfResultError (r : MCPResponse) : Prop :=
  (r.result.isSome ∧ r.error = none) ∨ (r.result = none ∧ r.error.isSome)

/-- Project the caller-visible outcome out of a `send_request_finish`
result. -/
def callerOutcomeOf
    (o : Option (ClientState × List Effect × CallerOutcome)) :
    Option CallerOutcome :=
  o.map (fun t => t.2.2)

/-- Did the caller receive a returned `MCPResponse` (as opposed to a raised
exception or a cancellation)? -/
def callerReceivedResponse
    (o : Option (ClientState × List Effect × CallerOutcome)) : Bool :=
  match o with
  | some (_, _, .ok _) => true
  | _ => false

/-- A transport configuration with the scenario values of claim C4:
`timeout=30s`, `retryAttempts=3`. -/
def sampleTransportConfig : TransportConfig :=
  { type := "http", endpoint := "http://localhost:8080/mcp" }

/-- A client configuration with metrics enabled (the default). -/
def sampleConfig : ClientConfig :=
  { client_id := "test-client", transport := sampleTransportConfig }

/-- Fresh metrics for `sampleConfig`. -/
def sampleMetrics : Metrics :=
  { client_id := "test-client", version := "2.0" }

/-- A freshly constructed client. -/
def sampleState : ClientState :=
  { config := sampleConfig, metrics := sampleMetrics }

/-- A connected client with two in-flight requests owning distinct futures. -/
def c1State : ClientState :=
  { sampleState with
      connected := true
      transport_connected := true
      pending_requests := [("req-a", 0), ("req-b", 1)]
      futures := [(0, .unresolved), (1, .unresolved)]
      next_future := 2 }

/-- The wire response for `req-a`. -/
def c1RespA : MCPResponse := { id := "req-a", result := some (.str "A") }

/-- The wire response for `req-b`. -/
def c1RespB : MCPResponse := { id := "req-b", result := some (.str "B") }

/-- A connected client with one in-flight request, used by the
error-response scenario. -/
def c3State : ClientState :=
  { sampleState with
      connected := true
      transport_connected := true
      pending_requests := [("req-1", 0)]
      futures := [(0, .unresolved)]
      next_future := 1 }

/-- The scenario's wire response: a well-formed response carrying the
`METHOD_NOT_FOUND` error object. -/
def c3Wire : MCPResponse :=
  { id := "req-1"
    error := some
      { code := -32601, message := "Method not found"
        type := some "METHOD_NOT_FOUND" } }

/-- What `send_request` does once that wire response arrives. -/
def c3Result : Option (ClientState × List Effect × CallerOutcome) :=
  send_request_finish c3State "req-1" 0 c3Wire

/-- The request of the retry scenario. -/
def c4Request : MCPRequest := { id := "req-1", method := "search" }

/-- The successful wire response of the retry scenario. -/
def c4Wire : MCPResponse :=
  { id := "req-1"
    result := some (.obj [("status", .str "success"), ("count", .num 5)]) }

/-- The scenario's attempt outcomes: two transient network failures, then
success. -/
def c4Outcomes : List AttemptOutcome :=
  [.netError "Connection reset by peer", .netError "Connection reset by peer",
   .ok c4Wire]

/-- Running the scenario: `HttpTransport.send` from a connected client with
one in-flight request and fresh metrics. -/
def c4Run : ClientState × List Effect × Except MCPClientException Unit :=
  HttpTransport.send c3State c4Request c4Outcomes

/-- A pydantic-valid response with both `result` and `error` populated. -/
def c7Both : MCPResponse :=
  { id := "dup", result := some (.str "ok")
    error := some { code := -32603, message := "Internal error" } }

/-- A client whose event queue already holds 1000 events. -/
def c8FullState : ClientState :=
  { sampleState with
      event_queue := List.replicate 1000 { type := EventType.REQUEST_SENT } }

/-- A request whose caller pre-set the metadata key the client also sets. -/
def c10Request : MCPRequest :=
  { id := "req-1", method := "search"
    metadata := some [("client_id", .str "caller-supplied"), ("trace", .str "t-1")] }

/-- Well-formedness of the pending-request table: request ids are unique
among in-flight requests (the spec's invariant), distinct entries own
distinct futures (each `send_request` call allocates a fresh
`asyncio.Future`), and every in-flight future is still unresolved. -/
structure PendingInv (s : ClientState) : Prop where
  keysNodup : (s.pending_requests.map Prod.fst).Nodup
  fidsNodup : (s.pending_requests.map Prod.snd).Nodup
  unresolved : ∀ p ∈ s.pending_requests,
    dictGet s.futures p.2 = some FutureCell.unresolved

/-! ### Association-list dictionary lemmas -/

section DictLemmas

variable {κ α : Type} [DecidableEq κ]

theorem dictGet_nil (k : κ) : dictGet ([] : List (κ × α)) k = none := rfl

theorem dictGet_cons (x : κ × α) (d : List (κ × α)) (k : κ) :
    dictGet (x :: d) k = if x.1 = k then some x.2 else dictGet d k := by
  by_cases h : x.1 = k <;> simp [dictGet, List.find?_cons, h]

theorem dictGet_append (d e : List (κ × α)) (k : κ) :
    dictGet (d ++ e) k =
      match dictGet d k with
      | some v => some v
      | none => dictGet e k := by
  induction d with
  | nil => simp [dictGet_nil]
  | cons x d ih =>
      by_cases h : x.1 = k <;> simp [dictGet_cons, h, ih]

theorem dictGet_mem {d : List (κ × α)} {k : κ} {v : α}
    (h : dictGet d k = some v) : (k, v) ∈ d := by
  induction d with
  | nil => simp [dictGet_nil] at h
  | cons x d ih =>
      rw [dictGet_cons] at h
      by_cases hx : x.1 = k
      · rw [if_pos hx] at h
        have hv : x.2 = v := by injection h
        have hxkv : (k, v) = x := by
          cases x with
          | mk a b =>
              simp only at hx hv
              rw [hx, hv]
        rw [hxkv]
        exact List.mem_cons_self _ _
      · rw [if_neg hx] at h
        exact List.mem_cons_of_mem _ (ih h)

theorem dictGet_eq_none_iff {d : List (κ × α)} {k : κ} :
    dictGet d k = none ↔ ∀ p ∈ d, p.1 ≠ k := by
  induction d with
  | nil => simp [dictGet_nil]
  | cons x d ih =>
      by_cases hx : x.1 = k <;> simp [dictGet_cons, hx, ih]

theorem dictGet_mapReplace_self (d : List (κ × α)) (k : κ) (v : α)
    (hf : (d.find? (fun p => p.1 = k)).isSome) :
    dictGet (d.map (fun p => if p.1 = k then (k, v) else p)) k = some v := by
  induction d with
  | nil => simp [List.find?] at hf
  | cons x d ih =>
      by_cases hx : x.1 = k
      · simp [dictGet_cons, hx]
      · rw [List.find?_cons_of_neg _ (by simpa using hx)] at hf
        simpa [dictGet_cons, hx] using ih hf

theorem dictGet_mapReplace_ne (d : List (κ × α)) (k q : κ) (v : α)
    (h : q ≠ k) :
    dictGet (d.map (fun p => if p.1 = k then (k, v) else p)) q = dictGet d q := by
  induction d with
  | nil => rfl
  | cons x d ih =>
      by_cases hx : x.1 = k
      · have hkq : ¬(k = q) := fun hk => h hk.symm
        have hxq : ¬(x.1 = q) := by rw [hx]; exact hkq
        simp [dictGet_cons, hx, hkq, hxq, ih]
      · simp [dictGet_cons, hx, ih]

theorem dictGet_set_self (d : List (κ × α)) (k : κ) (v : α) :
    dictGet (dictSet d k v) k = some v := by
  unfold dictSet
  by_cases hf : (d.find? (fun p => p.1 = k)).isSome
  · rw [if_pos hf]
    exact dictGet_mapReplace_self d k v hf
  · rw [if_neg hf]
    have hnone : dictGet d k = none := by
      unfold dictGet
      rw [Option.not_isSome_iff_eq_none] at hf
      rw [hf]
      rfl
    rw [dictGet_append, hnone]
    simp [dictGet_cons]

theorem dictGet_set_ne (d : List (κ × α)) (k q : κ) (v : α) (h : q ≠ k) :
    dictGet (dictSet d k v) q = dictGet d q := by
  unfold dictSet
  by_cases hf : (d.find? (fun p => p.1 = k)).isSome
  · rw [if_pos hf]
    exact dictGet_mapReplace_ne d k q v h
  · rw [if_neg hf]
    rw [dictGet_append]
    cases hdq : dictGet d q with
    | some v0 => rfl
    | none =>
        have hkq : ¬(k = q) := fun hk => h hk.symm
        simp [dictGet_cons, hkq, dictGet_nil]

theorem mem_dictRemove {d : List (κ × α)} {k : κ} {p : κ × α} :
    p ∈ dictRemove d k ↔ p ∈ d ∧ p.1 ≠ k := by
  simp [dictRemove, List.mem_filter]

theorem dictRemove_sublist (d : List (κ × α)) (k : κ) :
    List.Sublist (dictRemove d k) d :=
  List.filter_sublist d

theorem dictGet_remove_self (d : List (κ × α)) (k : κ) :
    dictGet (dictRemove d k) k = none := by
  rw [dictGet_eq_none_iff]
  intro p hp
  exact (mem_dictRemove.mp hp).2

theorem dictGet_remove_ne (d : List (κ × α)) (k q : κ) (h : q ≠ k) :
    dictGet (dictRemove d k) q = dictGet d q := by
  induction d with
  | nil => rfl
  | cons x d ih =>
      have hkq : ¬(k = q) := fun hk => h hk.symm
      by_cases hx : x.1 = k
      · have hxq : ¬(x.1 = q) := by rw [hx]; exact hkq
        simpa [dictRemove, List.filter_cons, hx, hxq, hkq, dictGet_cons] using ih
      · by_cases hq : x.1 = q
        · simp [dictRemove, List.filter_cons, hx, hq, h, hkq, dictGet_cons]
        · simpa [dictRemove, List.filter_cons, hx, hq, h, hkq, dictGet_cons] using ih

theorem dictRemove_eq_self {d : List (κ × α)} {k : κ}
    (h : dictGet d k = none) : dictRemove d k = d := by
  rw [dictGet_eq_none_iff] at h
  unfold dictRemove
  rw [List.filter_eq_self]
  intro p hp
  simpa using h p hp

theorem dictSet_of_not_mem {d : List (κ × α)} {k : κ} (v : α)
    (h : dictGet d k = none) : dictSet d k v = d ++ [(k, v)] := by
  unfold dictSet
  rw [if_neg]
  rw [dictGet_eq_none_iff] at h
  intro hf
  rw [Option.isSome_iff_exists] at hf
  obtain ⟨p, hp⟩ := hf
  have hm := List.find?_some hp
  have hmem := List.mem_of_find?_eq_some hp
  exact h p hmem (by simpa using hm)

/-- Keys of distinct members of a `Nodup`-key dictionary are distinct, so a
member sharing a key with a `dictGet` result is that result. -/
theorem dictGet_unique {d : List (κ × α)} {k : κ} {v : α} {p : κ × α}
    (hnodup : (d.map Prod.fst).Nodup) (hget : dictGet d k = some v)
    (hp : p ∈ d) (hk : p.1 = k) : p = (k, v) := by
  have hmem : (k, v) ∈ d := dictGet_mem hget
  have hinj := List.inj_on_of_nodup_map hnodup
  have : p = (k, v) ∨ p ≠ (k, v) := em _
  rcases this with heq | hne
  · exact heq
  · exfalso
    have : p.1 = (k, v).1 := by simpa using hk
    have := hinj hp hmem this
    exact hne this

end DictLemmas

/-! ### Structural lemmas about `_handle_message` -/

theorem handleMessage_found (s : ClientState) (r : MCPResponse) (fid : Nat)
    (h : dictGet s.pending_requests r.id = some fid) :
    handleMessage s r =
      ({ s with
          pending_requests := dictRemove s.pending_requests r.id
          futures := dictSet s.futures fid (responseOutcome r) }, []) := by
  simp [handleMessage, dictPop, h]

theorem handleMessage_not_found (s : ClientState) (r : MCPResponse)
    (h : dictGet s.pending_requests r.id = none) :
    handleMessage s r =
      (s, [Effect.logWarning
        ("Received response for unknown request ID: " ++ r.id)]) := by
  simp [handleMessage, dictPop, h]

theorem handleMessage_pending_subset (s : ClientState) (r : MCPResponse) :
    ∀ p ∈ (handleMessage s r).1.pending_requests, p ∈ s.pending_requests := by
  intro p hp
  cases h : dictGet s.pending_requests r.id with
  | some fid =>
      rw [handleMessage_found s r fid h] at hp
      exact (mem_dictRemove.mp hp).1
  | none =>
      rw [handleMessage_not_found s r h] at hp
      exact hp

theorem handleMessage_futures_frame (s : ClientState) (r : MCPResponse)
    (fid : Nat) (h : ∀ p ∈ s.pending_requests, p.2 ≠ fid) :
    dictGet (handleMessage s r).1.futures fid = dictGet s.futures fid := by
  cases hg : dictGet s.pending_requests r.id with
  | some f =>
      rw [handleMessage_found s r f hg]
      have hmem : (r.id, f) ∈ s.pending_requests := dictGet_mem hg
      have hne : fid ≠ f := fun he => h (r.id, f) hmem (by rw [he])
      exact dictGet_set_ne s.futures f fid (responseOutcome r) hne
  | none => rw [handleMessage_not_found s r hg]

theorem processResponses_cons (s : ClientState) (r : MCPResponse)
    (rs : List MCPResponse) :
    processResponses s (r :: rs) = processResponses (handleMessage s r).1 rs := rfl

theorem processResponses_futures_frame (rs : List MCPResponse)
    (s : ClientState) (fid : Nat)
    (h : ∀ p ∈ s.pending_requests, p.2 ≠ fid) :
    dictGet (processResponses s rs).futures fid = dictGet s.futures fid := by
  induction rs generalizing s with
  | nil => rfl
  | cons r rs ih =>
      rw [processResponses_cons]
      have hsub := handleMessage_pending_subset s r
      have h2 : ∀ p ∈ (handleMessage s r).1.pending_requests, p.2 ≠ fid :=
        fun p hp => h p (hsub p hp)
      rw [ih _ h2]
      exact handleMessage_futures_frame s r fid h

/-- Distinct-future injectivity on the pending table. -/
theorem pending_snd_inj {s : ClientState} (hinv : PendingInv s)
    {p q : String × Nat} (hp : p ∈ s.pending_requests)
    (hq : q ∈ s.pending_requests) (h : p.2 = q.2) : p = q :=
  List.inj_on_of_nodup_map hinv.fidsNodup hp hq h

theorem pendingInv_handleMessage {s : ClientState} (hinv : PendingInv s)
    (r : MCPResponse) : PendingInv (handleMessage s r).1 := by
  cases hg : dictGet s.pending_requests r.id with
  | none =>
      rw [handleMessage_not_found s r hg]
      exact hinv
  | some fid =>
      rw [handleMessage_found s r fid hg]
      have hmem : (r.id, fid) ∈ s.pending_requests := dictGet_mem hg
      refine ⟨?_, ?_, ?_⟩
      · exact hinv.keysNodup.sublist
          (List.Sublist.map _ (dictRemove_sublist s.pending_requests r.id))
      · exact hinv.fidsNodup.sublist
          (List.Sublist.map _ (dictRemove_sublist s.pending_requests r.id))
      · intro p hp
        obtain ⟨hp0, hpne⟩ := mem_dictRemove.mp hp
        have hne : p.2 ≠ fid := by
          intro he
          have := pending_snd_inj hinv hp0 hmem (by simpa using he)
          rw [this] at hpne
          exact hpne rfl
        rw [dictGet_set_ne s.futures fid p.2 (responseOutcome r) hne]
        exact hinv.unresolved p hp0

/-- The core of claim C1: processing any batch of distinct-id responses, in
whatever arrival order the batch list encodes, resolves the future of each
matching pending entry with exactly its own response's outcome, and leaves
entries without a response untouched. -/
theorem processResponses_resolves (rs : List MCPResponse) (s : ClientState)
    (hinv : PendingInv s)
    (hids : (rs.map MCPResponse.id).Nodup)
    (hcover : ∀ r ∈ rs, dictGet s.pending_requests r.id ≠ none) :
    ∀ p ∈ s.pending_requests,
      (∀ r ∈ rs, r.id = p.1 →
        dictGet (processResponses s rs).futures p.2 = some (responseOutcome r))
      ∧ ((∀ r ∈ rs, r.id ≠ p.1) →
        dictGet (processResponses s rs).futures p.2
          = some FutureCell.unresolved) := by
  induction rs generalizing s with
  | nil =>
      intro p hp
      refine ⟨fun r hr => absurd hr (List.not_mem_nil r), fun _ => ?_⟩
      exact hinv.unresolved p hp
  | cons r rs ih =>
      intro p hp
      have hcov := hcover r (List.mem_cons_self r rs)
      obtain ⟨fr, hfr⟩ := Option.ne_none_iff_exists.mp hcov
      have hfr : dictGet s.pending_requests r.id = some fr := hfr.symm
      have hmemr : (r.id, fr) ∈ s.pending_requests := dictGet_mem hfr
      have hnotin : r.id ∉ rs.map MCPResponse.id := by
        have := hids
        rw [List.map_cons, List.nodup_cons] at this
        exact this.1
      have hids2 : (rs.map MCPResponse.id).Nodup := by
        have := hids
        rw [List.map_cons, List.nodup_cons] at this
        exact this.2
      have hfound := handleMessage_found s r fr hfr
      have hinv2 := pendingInv_handleMessage hinv r
      have hpend2 : (handleMessage s r).1.pending_requests
          = dictRemove s.pending_requests r.id := by rw [hfound]
      have hcover2 : ∀ r0 ∈ rs,
          dictGet (handleMessage s r).1.pending_requests r0.id ≠ none := by
        intro r0 hr0
        have hne : r0.id ≠ r.id := by
          intro he
          exact hnotin (he ▸ List.mem_map_of_mem MCPResponse.id hr0)
        rw [hpend2, dictGet_remove_ne _ _ _ hne]
        exact hcover r0 (List.mem_cons_of_mem r hr0)
      have IH := ih (handleMessage s r).1 hinv2 hids2 hcover2
      rw [processResponses_cons]
      by_cases hp1 : p.1 = r.id
      · have hpeq : p = (r.id, fr) :=
          dictGet_unique hinv.keysNodup hfr hp hp1
        constructor
        · intro r0 hr0 hid0
          rcases List.mem_cons.mp hr0 with he | hm
          · rw [he] at hid0 ⊢
            have hframe : ∀ q ∈ (handleMessage s r).1.pending_requests,
                q.2 ≠ fr := by
              intro q hq
              rw [hpend2] at hq
              obtain ⟨hq0, hqne⟩ := mem_dictRemove.mp hq
              intro heq
              have hqq := pending_snd_inj hinv hq0 hmemr (by simpa using heq)
              rw [hqq] at hqne
              exact hqne rfl
            have hcell : dictGet (handleMessage s r).1.futures fr
                = some (responseOutcome r) := by
              rw [hfound]
              exact dictGet_set_self s.futures fr (responseOutcome r)
            rw [hpeq]
            show dictGet (processResponses (handleMessage s r).1 rs).futures fr
              = some (responseOutcome r)
            rw [processResponses_futures_frame rs _ fr hframe]
            exact hcell
          · exfalso
            have hr0id : r0.id = r.id := hid0.trans hp1
            exact hnotin (hr0id ▸ List.mem_map_of_mem MCPResponse.id hm)
        · intro hall
          exfalso
          exact hall r (List.mem_cons_self r rs) hp1.symm
      · have hp2 : p ∈ (handleMessage s r).1.pending_requests := by
          rw [hpend2]
          exact mem_dictRemove.mpr ⟨hp, fun he => hp1 he⟩
        have IHp := IH p hp2
        constructor
        · intro r0 hr0 hid0
          rcases List.mem_cons.mp hr0 with he | hm
          · exfalso
            apply hp1
            rw [← hid0, he]
          · exact IHp.1 r0 hm hid0
        · intro hall
          exact IHp.2 (fun r0 hm => hall r0 (List.mem_cons_of_mem r hm))

/-! ### Projection lemmas: which state components each operation touches -/

theorem emitEvent_state (s : ClientState) (t : EventType) (d : Option JSONValue) :
    (emitEvent s t d).1 = { s with event_queue := s.event_queue
      ++ [{ type := t, data := d, source := some s.config.client_id }] } := rfl

theorem emitEvent_effects (s : ClientState) (t : EventType) (d : Option JSONValue) :
    (emitEvent s t d).2 = (listenersFor s t).map
      (fun l => Effect.listenerCall l
        { type := t, data := d, source := some s.config.client_id }) := rfl

theorem handleError_pending (s : ClientState) (e : PyException) :
    (handleError s e).1.pending_requests = s.pending_requests := by
  unfold handleError
  split <;> rfl

theorem handleError_futures (s : ClientState) (e : PyException) :
    (handleError s e).1.futures = s.futures := by
  unfold handleError
  split <;> rfl

theorem handleError_transport_connected (s : ClientState) (e : PyException) :
    (handleError s e).1.transport_connected = s.transport_connected := by
  unfold handleError
  split <;> rfl

theorem handleError_config (s : ClientState) (e : PyException) :
    (handleError s e).1.config = s.config := by
  unfold handleError
  split <;> rfl

theorem handleError_errors_total (s : ClientState) (e : PyException)
    (h : s.config.enable_metrics = true) :
    (handleError s e).1.metrics.errors_total = s.metrics.errors_total + 1 := by
  unfold handleError
  rw [if_pos h]
  rfl

theorem handleMessage_metrics (s : ClientState) (r : MCPResponse) :
    (handleMessage s r).1.metrics = s.metrics := by
  cases h : dictGet s.pending_requests r.id with
  | some fid => rw [handleMessage_found s r fid h]
  | none => rw [handleMessage_not_found s r h]

theorem handleMessage_transport_connected (s : ClientState) (r : MCPResponse) :
    (handleMessage s r).1.transport_connected = s.transport_connected := by
  cases h : dictGet s.pending_requests r.id with
  | some fid => rw [handleMessage_found s r fid h]
  | none => rw [handleMessage_not_found s r h]

theorem handleMessage_config (s : ClientState) (r : MCPResponse) :
    (handleMessage s r).1.config = s.config := by
  cases h : dictGet s.pending_requests r.id with
  | some fid => rw [handleMessage_found s r fid h]
  | none => rw [handleMessage_not_found s r h]

theorem enrich_request_id (s : ClientState) (req : MCPRequest) :
    (enrich_request s req).id = req.id := by
  unfold enrich_request
  split <;> rfl

theorem enrich_request_method (s : ClientState) (req : MCPRequest) :
    (enrich_request s req).method = req.method := by
  unfold enrich_request
  split <;> rfl

theorem enrich_request_context (s : ClientState) (req : MCPRequest) :
    (enrich_request s req).context
      = if (req.context.isNone && s.current_context.isSome) = true
        then s.current_context else req.context := by
  unfold enrich_request
  split
  next h => rfl
  next h => rfl

theorem send_request_start_pending (s : ClientState) (req : MCPRequest)
    (out : ClientState × List Effect × MCPRequest × Nat)
    (h : send_request_start s req = Except.ok out) :
    out.1.pending_requests
      = dictSet s.pending_requests (enrich_request s req).id s.next_future := by
  unfold send_request_start at h
  cases hv : validate_request s req with
  | error e =>
      rw [hv] at h
      cases h
  | ok u =>
      cases u
      rw [hv] at h
      cases h
      show (emitEvent _ _ _).1.pending_requests = _
      rw [emitEvent_state]
      split <;> rfl

theorem client_disconnect_pending (s : ClientState) :
    (client_disconnect s).1.pending_requests = s.pending_requests := by
  simp only [client_disconnect, transport_on_disconnect,
    update_connection_status, emitEvent_state]
  split <;> rfl

theorem client_disconnect_futures (s : ClientState) :
    (client_disconnect s).1.futures = s.futures := by
  simp only [client_disconnect, transport_on_disconnect,
    update_connection_status, emitEvent_state]
  split <;> rfl

theorem client_disconnect_closed (s : ClientState) :
    (client_disconnect s).1.closed = s.closed := by
  simp only [client_disconnect, transport_on_disconnect,
    update_connection_status, emitEvent_state]
  split <;> rfl

theorem client_disconnect_listeners (s : ClientState) :
    (client_disconnect s).1.event_listeners = s.event_listeners := by
  simp only [client_disconnect, transport_on_disconnect,
    update_connection_status, emitEvent_state]
  split <;> rfl

/-! ### The claims -/

/-- C7, counterexample: `MCPResponse` does not enforce that exactly one of
`result`/`error` is set — `c7Both` carries both, is a perfectly valid
response value for the model (and for pydantic, which has no such
validator), and its `is_success` is `false`. -/
theorem C7_counterexample :
    ¬ exactlyOneOfResultError c7Both ∧ c7Both.is_success = false := by
  constructor
  · intro h
    rcases h with ⟨h1, h2⟩ | ⟨h1, h2⟩
    · simp [c7Both] at h2
    · simp [c7Both] at h1
  · rfl

/-- C7, amended: the second half of the claim holds as stated — a response
counts as a success exactly when its `error` field is absent, by the
definition of `MCPResponse.is_success`; the exclusivity half fails (see the
counterexample). -/
theorem C7_success_iff_no_error (r : MCPResponse) :
    r.is_success = true ↔ r.error = none := by
  unfold MCPResponse.is_success
  cases r.error <;> simp

/-- C8: the spec says the event queue is bounded with drop-on-full, but the
constructor builds `asyncio.Queue()` with the default `maxsize = 0`, which
is unbounded: `queueFull` is identically false, `_emit_event`'s
`QueueFull` branch is dead code, and every emitted event is enqueued — a
queue already holding 1000 events grows to 1001 instead of dropping. -/
theorem C8_queue_unbounded :
    eventQueueMaxsize = 0
    ∧ (∀ len, queueFull len eventQueueMaxsize = false)
    ∧ (∀ (s : ClientState) (t : EventType) (d : Option JSONValue),
        (emitEvent s t d).1.event_queue = s.event_queue
          ++ [{ type := t, data := d, source := some s.config.client_id }])
    ∧ (emitEvent c8FullState EventType.REQUEST_SENT none).1.event_queue.length
        = 1001 := by
  have h3 : ∀ (s : ClientState) (t : EventType) (d : Option JSONValue),
      (emitEvent s t d).1.event_queue = s.event_queue
        ++ [{ type := t, data := d, source := some s.config.client_id }] :=
    fun _ _ _ => rfl
  refine ⟨rfl, fun len => rfl, h3, ?_⟩
  have hq : c8FullState.event_queue
      = List.replicate 1000 { type := EventType.REQUEST_SENT } := rfl
  rw [h3, hq, List.length_append, List.length_replicate]
  rfl

/-- C2: a fired timeout removes the pending entry before the caller is
signalled — afterwards no lookup for the request id succeeds; and any
inbound response whose id has no pending entry is dropped with only a
warning: the state (including metrics and the event queue) is untouched, so
the drop is not treated as an error. In particular the late response for
the timed-out request itself is dropped. -/
theorem C2_timeout_removes_entry_late_response_dropped (s : ClientState)
    (requestId : String) (resp : MCPResponse) (hid : resp.id = requestId) :
    dictGet (send_request_onTimeout s requestId).1.pending_requests requestId
        = none
    ∧ (∀ (s0 : ClientState) (r0 : MCPResponse),
        dictGet s0.pending_requests r0.id = none →
        handleMessage s0 r0 = (s0, [Effect.logWarning
          ("Received response for unknown request ID: " ++ r0.id)]))
    ∧ handleMessage (send_request_onTimeout s requestId).1 resp
        = ((send_request_onTimeout s requestId).1,
           [Effect.logWarning
             ("Received response for unknown request ID: " ++ resp.id)]) := by
  have hpend : (send_request_onTimeout s requestId).1.pending_requests
      = dictRemove s.pending_requests requestId := by
    unfold send_request_onTimeout
    rw [handleError_pending]
    rfl
  have h1 : dictGet (send_request_onTimeout s requestId).1.pending_requests
      requestId = none := by
    rw [hpend]
    exact dictGet_remove_self s.pending_requests requestId
  refine ⟨h1, fun s0 r0 h0 => handleMessage_not_found s0 r0 h0, ?_⟩
  exact handleMessage_not_found _ resp (by rw [hid]; exact h1)

/-- Witness for C2 at a concrete client: time out the in-flight request
`req-a` of `c1State`, then let its response arrive late. -/
theorem C2_witness :
    dictGet (send_request_onTimeout c1State "req-a").1.pending_requests "req-a"
        = none
    ∧ handleMessage (send_request_onTimeout c1State "req-a").1 c1RespA
        = ((send_request_onTimeout c1State "req-a").1,
           [Effect.logWarning
             ("Received response for unknown request ID: " ++ c1RespA.id)]) := by
  have h := C2_timeout_removes_entry_late_response_dropped c1State "req-a"
    c1RespA rfl
  exact ⟨h.1, h.2.2⟩

/-- C5: `send_request` raises before registering anything when the id is
empty or blank, when the method is empty or blank, or when the client is
not connected — in the model `send_request_start` returns `Except.error`
carrying only the exception, i.e. no state change occurs, no pending entry
is registered and no `transportSend` effect is produced. The three raises
carry the source's messages (all as bare `MCPClientException`s). -/
theorem C5_invalid_or_disconnected_request_rejected (s : ClientState)
    (req : MCPRequest) :
    ((req.id = "" ∨ strBlank req.id = true) →
      send_request_start s req
        = .error { message := "Request ID cannot be null or empty" })
    ∧ (¬(req.id = "" ∨ strBlank req.id = true) →
        (req.method = "" ∨ strBlank req.method = true) →
      send_request_start s req
        = .error { message := "Request method cannot be null or empty" })
    ∧ (¬(req.id = "" ∨ strBlank req.id = true) →
        ¬(req.method = "" ∨ strBlank req.method = true) →
        s.is_connected = false →
      send_request_start s req
        = .error { message := "Client is not connected" }) := by
  refine ⟨?_, ?_, ?_⟩
  · intro hid
    unfold send_request_start validate_request
    rw [if_pos hid]
  · intro hid hm
    unfold send_request_start validate_request
    rw [if_neg hid, if_pos hm]
  · intro hid hm hc
    unfold send_request_start validate_request
    rw [if_neg hid, if_neg hm, if_pos hc]

/-- Witness for C5: a blank-id request, a blank-method request, and a valid
request against a disconnected client are all rejected with the
corresponding exception. -/
theorem C5_witness :
    send_request_start c1State { id := "  ", method := "search" }
        = .error { message := "Request ID cannot be null or empty" }
    ∧ send_request_start c1State { id := "req-z", method := "" }
        = .error { message := "Request method cannot be null or empty" }
    ∧ send_request_start sampleState { id := "req-z", method := "search" }
        = .error { message := "Client is not connected" } := by
  refine ⟨?_, ?_, ?_⟩
  · exact (C5_invalid_or_disconnected_request_rejected c1State
      { id := "  ", method := "search" }).1 (Or.inr (by decide))
  · exact (C5_invalid_or_disconnected_request_rejected c1State
      { id := "req-z", method := "" }).2.1 (by decide) (Or.inl rfl)
  · exact (C5_invalid_or_disconnected_request_rejected sampleState
      { id := "req-z", method := "search" }).2.2 (by decide) (by decide) rfl

/-- C3, counterexample: for the scenario's wire response (error object with
code `-32601`, type `METHOD_NOT_FOUND`), the caller does not receive a
returned `Response` at all — `_handle_message` calls `set_exception` on the
pending future, so `await` raises and `send_request` re-raises: the caller
sees a raised `MCPClientException` (carrying the error's code and type),
not a Response with `is_success == false`. -/
theorem C3_counterexample :
    callerReceivedResponse c3Result = false
    ∧ callerOutcomeOf c3Result
        = some (.exc { message := "Method not found", error_code := -32601,
                       error_type := some "METHOD_NOT_FOUND" }) := by
  constructor
  · rfl
  · rfl

/-- C3, amended: when the pending entry for the request exists and the wire
response carries an error object, the caller receives a raised
`MCPClientException` whose `error_code` and `error_type` are the wire
error's `code` and `type`, preserved verbatim (rather than a returned
`Response` with `is_success == false`). -/
theorem C3_error_response_surfaces_as_raised_exception (s : ClientState)
    (requestId : String) (fid : Nat) (err : MCPError) (wire : MCPResponse)
    (hwid : wire.id = requestId)
    (hwerr : wire.error = some err)
    (hget : dictGet s.pending_requests requestId = some fid) :
    callerOutcomeOf (send_request_finish s requestId fid wire)
      = some (.exc { message := err.message, error_code := err.code,
                     error_type := err.type }) := by
  have hfound := handleMessage_found s wire fid (by rw [hwid]; exact hget)
  have hcell : responseOutcome wire
      = .exception { message := err.message, error_code := err.code,
                     error_type := err.type } := by
    unfold responseOutcome MCPResponse.is_success
    rw [hwerr]
    rfl
  simp only [send_request_finish, hfound]
  rw [dictGet_set_self, hcell]
  rfl

/-- Witness for C3's amended claim at the concrete scenario. -/
theorem C3_witness :
    callerOutcomeOf (send_request_finish c3State "req-1" 0 c3Wire)
      = some (.exc { message := "Method not found", error_code := -32601,
                     error_type := some "METHOD_NOT_FOUND" }) :=
  C3_error_response_surfaces_as_raised_exception c3State "req-1" 0
    { code := -32601, message := "Method not found"
      type := some "METHOD_NOT_FOUND" }
    c3Wire rfl rfl rfl

/-- C10: `_enrich_request` mutates the caller's request object in place
(modelled as the returned record, the state of that same object): the
client's current context is attached when the request has none, the
metadata keys `client_id` and `client_version` are overwritten
unconditionally — even when the caller had set them — while every other
metadata key, the id and the method are preserved. -/
theorem C10_enrich_overwrites_client_metadata (s : ClientState)
    (req : MCPRequest) :
    (req.context = none → (enrich_request s req).context = s.current_context)
    ∧ (∀ c, req.context = some c → (enrich_request s req).context = some c)
    ∧ requestMetaGet (enrich_request s req) "client_id"
        = some (.str s.config.client_id)
    ∧ requestMetaGet (enrich_request s req) "client_version"
        = some (.str s.config.version)
    ∧ (∀ k, k ≠ "client_id" → k ≠ "client_version" →
        requestMetaGet (enrich_request s req) k = requestMetaGet req k)
    ∧ (enrich_request s req).id = req.id
    ∧ (enrich_request s req).method = req.method := by
  have hmeta : (enrich_request s req).metadata
      = some (dictSet (dictSet (req.metadata.getD []) "client_id"
          (.str s.config.client_id)) "client_version" (.str s.config.version)) := by
    unfold enrich_request
    split <;> rfl
  refine ⟨?_, ?_, ?_, ?_, ?_, enrich_request_id s req, enrich_request_method s req⟩
  · intro hc
    rw [enrich_request_context, hc]
    cases hcc : s.current_context with
    | none => simp
    | some c0 => simp
  · intro c hc
    rw [enrich_request_context, hc]
    simp
  · rw [requestMetaGet, hmeta]
    show dictGet (dictSet _ "client_version" _) "client_id" = _
    rw [dictGet_set_ne _ _ _ _ (by decide), dictGet_set_self]
  · rw [requestMetaGet, hmeta]
    show dictGet (dictSet _ "client_version" _) "client_version" = _
    rw [dictGet_set_self]
  · intro k hk1 hk2
    rw [requestMetaGet, hmeta]
    show dictGet (dictSet _ "client_version" _) k = _
    rw [dictGet_set_ne _ _ _ _ hk2, dictGet_set_ne _ _ _ _ hk1]
    rfl

/-- Witness for C10: enrichment of `c10Request`, whose caller pre-set the
`client_id` metadata key, overwrites it with the client's configured id and
keeps the caller's other key. -/
theorem C10_witness :
    requestMetaGet (enrich_request sampleState c10Request) "client_id"
        = some (.str "test-client")
    ∧ requestMetaGet (enrich_request sampleState c10Request) "trace"
        = some (.str "t-1")
    ∧ (enrich_request sampleState c10Request).context = none := by
  have h := C10_enrich_overwrites_client_metadata sampleState c10Request
  refine ⟨h.2.2.1, ?_, ?_⟩
  · rw [h.2.2.2.2.1 "trace" (by decide) (by decide)]
    rfl
  · rw [h.1 rfl]
    rfl

/-! ### Effect-trace lemmas for the WebSocket receive loop -/

theorem framesDelivered_append (a b : List Effect) :
    framesDelivered (a ++ b) = framesDelivered a ++ framesDelivered b :=
  List.filterMap_append a b _

theorem decodeErrorCount_append (a b : List Effect) :
    decodeErrorCount (a ++ b) = decodeErrorCount a + decodeErrorCount b := by
  unfold decodeErrorCount
  rw [List.filter_append, List.length_append]

theorem framesDelivered_listenerCalls (ls : List Nat) (ev : EventData) :
    framesDelivered (ls.map (fun l => Effect.listenerCall l ev)) = [] := by
  induction ls with
  | nil => rfl
  | cons l ls ih =>
      unfold framesDelivered at ih ⊢
      rw [List.map_cons, List.filterMap_cons]
      exact ih

theorem decodeErrorCount_listenerCalls (ls : List Nat) (ev : EventData) :
    decodeErrorCount (ls.map (fun l => Effect.listenerCall l ev)) = 0 := by
  induction ls with
  | nil => rfl
  | cons l ls ih =>
      unfold decodeErrorCount at ih ⊢
      rw [List.map_cons, List.filter_cons]
      exact ih

theorem framesDelivered_emitEvent (s : ClientState) (t : EventType)
    (d : Option JSONValue) : framesDelivered (emitEvent s t d).2 = [] := by
  rw [emitEvent_effects]
  exact framesDelivered_listenerCalls _ _

theorem decodeErrorCount_emitEvent (s : ClientState) (t : EventType)
    (d : Option JSONValue) : decodeErrorCount (emitEvent s t d).2 = 0 := by
  rw [emitEvent_effects]
  exact decodeErrorCount_listenerCalls _ _

theorem handleError_effects (s : ClientState) (e : PyException) :
    (handleError s e).2 = Effect.logError ("Client error: " ++ e.str)
      :: (emitEvent
            (if s.config.enable_metrics then
              { s with metrics :=
                  { s.metrics with errors_total := s.metrics.errors_total + 1 } }
            else s)
            EventType.ERROR_OCCURRED
            (some (.obj [("error", .str e.str),
                         ("error_type", .str e.className)]))).2 := rfl

theorem framesDelivered_handleError (s : ClientState) (e : PyException) :
    framesDelivered (handleError s e).2 = [] := by
  rw [handleError_effects]
  unfold framesDelivered
  rw [List.filterMap_cons]
  exact framesDelivered_emitEvent _ _ _

theorem decodeErrorCount_handleError (s : ClientState) (e : PyException) :
    decodeErrorCount (handleError s e).2 = 0 := by
  rw [handleError_effects]
  unfold decodeErrorCount
  rw [List.filter_cons]
  exact decodeErrorCount_emitEvent _ _ _

theorem framesDelivered_handleMessage (s : ClientState) (r : MCPResponse) :
    framesDelivered (handleMessage s r).2 = [] := by
  cases h : dictGet s.pending_requests r.id with
  | some fid =>
      rw [handleMessage_found s r fid h]
      rfl
  | none =>
      rw [handleMessage_not_found s r h]
      rfl

theorem decodeErrorCount_handleMessage (s : ClientState) (r : MCPResponse) :
    decodeErrorCount (handleMessage s r).2 = 0 := by
  cases h : dictGet s.pending_requests r.id with
  | some fid =>
      rw [handleMessage_found s r fid h]
      rfl
  | none =>
      rw [handleMessage_not_found s r h]
      rfl

theorem framesDelivered_processFrame (s : ClientState) (f : Frame) :
    framesDelivered (processFrame s f).2 = (frameResponse f).toList := by
  cases f with
  | decodable r =>
      show framesDelivered
        (Effect.onMessageHook r :: (handleMessage s r).2) = [r]
      unfold framesDelivered
      rw [List.filterMap_cons]
      have h := framesDelivered_handleMessage s r
      unfold framesDelivered at h
      show r :: _ = [r]
      rw [h]
  | garbage raw =>
      show framesDelivered
        (Effect.logError ("Failed to parse WebSocket message: " ++ raw)
          :: Effect.onErrorHook "JSONDecodeError" ("Expecting value: " ++ raw)
          :: (handleError s
              (.other "JSONDecodeError" ("Expecting value: " ++ raw))).2) = []
      unfold framesDelivered
      rw [List.filterMap_cons, List.filterMap_cons]
      have h := framesDelivered_handleError s
        (.other "JSONDecodeError" ("Expecting value: " ++ raw))
      unfold framesDelivered at h
      exact h

theorem decodeErrorCount_processFrame (s : ClientState) (f : Frame) :
    decodeErrorCount (processFrame s f).2
      = (match f with | .garbage _ => 1 | .decodable _ => 0) := by
  cases f with
  | decodable r =>
      show decodeErrorCount
        (Effect.onMessageHook r :: (handleMessage s r).2) = 0
      unfold decodeErrorCount
      rw [List.filter_cons]
      exact decodeErrorCount_handleMessage s r
  | garbage raw =>
      show decodeErrorCount
        (Effect.logError ("Failed to parse WebSocket message: " ++ raw)
          :: Effect.onErrorHook "JSONDecodeError" ("Expecting value: " ++ raw)
          :: (handleError s
              (.other "JSONDecodeError" ("Expecting value: " ++ raw))).2) = 1
      unfold decodeErrorCount
      rw [List.filter_cons, List.filter_cons]
      show (Effect.onErrorHook "JSONDecodeError" ("Expecting value: " ++ raw)
          :: List.filter _ (handleError s _).2).length = 1
      rw [List.length_cons]
      have h := decodeErrorCount_handleError s
        (.other "JSONDecodeError" ("Expecting value: " ++ raw))
      unfold decodeErrorCount at h
      rw [h]

theorem receiveLoop_fold (frames : List Frame) (s : ClientState)
    (effs : List Effect) :
    framesDelivered (frames.foldl receiveLoopBody (s, effs)).2
      = framesDelivered effs ++ frames.filterMap frameResponse
    ∧ decodeErrorCount (frames.foldl receiveLoopBody (s, effs)).2
      = decodeErrorCount effs + garbageCount frames := by
  induction frames generalizing s effs with
  | nil => exact ⟨by simp, by simp [garbageCount]⟩
  | cons f fs ih =>
      rw [List.foldl_cons]
      have hbody : receiveLoopBody (s, effs) f
          = ((processFrame s f).1, effs ++ (processFrame s f).2) := rfl
      rw [hbody]
      obtain ⟨ih1, ih2⟩ := ih (processFrame s f).1 (effs ++ (processFrame s f).2)
      constructor
      · rw [ih1, framesDelivered_append, framesDelivered_processFrame]
        cases f with
        | decodable r => simp [frameResponse, List.filterMap_cons]
        | garbage raw => simp [frameResponse, List.filterMap_cons]
      · rw [ih2, decodeErrorCount_append, decodeErrorCount_processFrame]
        cases f with
        | decodable r =>
            show decodeErrorCount effs + 0 + garbageCount fs
              = decodeErrorCount effs + garbageCount (Frame.decodable r :: fs)
            have hg : garbageCount (Frame.decodable r :: fs) = garbageCount fs := by
              unfold garbageCount
              rw [List.filter_cons]
              rfl
            rw [hg]
            omega
        | garbage raw =>
            show decodeErrorCount effs + 1 + garbageCount fs
              = decodeErrorCount effs + garbageCount (Frame.garbage raw :: fs)
            have hg : garbageCount (Frame.garbage raw :: fs)
                = garbageCount fs + 1 := by
              unfold garbageCount
              rw [List.filter_cons]
              show (Frame.garbage raw :: List.filter _ fs).length = _
              rw [List.length_cons]
            rw [hg]
            omega

/-- C9: for every batch of frames and every loop exit cause — normal socket
close, transport error, or task cancellation — the receive loop delivers
through `on_message` exactly the responses of the frames that decode, in
order (a garbage frame triggers `on_error` without stopping the processing
of later frames: the decode-failure hook fires once per garbage frame), and
the transport's connected flag is cleared on exit. -/
theorem C9_receive_loop_survives_bad_frames_and_clears_flag
    (s : ClientState) (frames : List Frame) (ex : LoopExit) :
    (WebSocketTransport.receiveMessages s true frames ex).1.transport_connected
        = false
    ∧ framesDelivered (WebSocketTransport.receiveMessages s true frames ex).2
        = frames.filterMap frameResponse
    ∧ decodeErrorCount (WebSocketTransport.receiveMessages s true frames ex).2
        = garbageCount frames := by
  obtain ⟨h1, h2⟩ := receiveLoop_fold frames s []
  have hbody1 : framesDelivered (frames.foldl receiveLoopBody (s, [])).2
      = frames.filterMap frameResponse := by
    rw [h1]
    rfl
  have hbody2 : decodeErrorCount (frames.foldl receiveLoopBody (s, [])).2
      = garbageCount frames := by
    rw [h2]
    show 0 + garbageCount frames = garbageCount frames
    rw [Nat.zero_add]
  cases ex with
  | socketClosed =>
      refine ⟨rfl, ?_, ?_⟩
      · exact hbody1
      · exact hbody2
  | wsError msg =>
      refine ⟨rfl, ?_, ?_⟩
      · show framesDelivered ((frames.foldl receiveLoopBody (s, [])).2
            ++ Effect.logError ("WebSocket error: " ++ msg)
              :: Effect.onErrorHook "WebSocketException" msg
              :: (handleError (frames.foldl receiveLoopBody (s, [])).1
                  (.other "WebSocketException" msg)).2)
          = frames.filterMap frameResponse
        rw [framesDelivered_append, hbody1]
        have htail : framesDelivered (Effect.logError ("WebSocket error: " ++ msg)
            :: Effect.onErrorHook "WebSocketException" msg
            :: (handleError (frames.foldl receiveLoopBody (s, [])).1
                (.other "WebSocketException" msg)).2) = [] := by
          unfold framesDelivered
          rw [List.filterMap_cons, List.filterMap_cons]
          have h := framesDelivered_handleError
            (frames.foldl receiveLoopBody (s, [])).1
            (.other "WebSocketException" msg)
          unfold framesDelivered at h
          exact h
        rw [htail]
        simp
      · show decodeErrorCount ((frames.foldl receiveLoopBody (s, [])).2
            ++ Effect.logError ("WebSocket error: " ++ msg)
              :: Effect.onErrorHook "WebSocketException" msg
              :: (handleError (frames.foldl receiveLoopBody (s, [])).1
                  (.other "WebSocketException" msg)).2)
          = garbageCount frames
        rw [decodeErrorCount_append, hbody2]
        have htail : decodeErrorCount (Effect.logError ("WebSocket error: " ++ msg)
            :: Effect.onErrorHook "WebSocketException" msg
            :: (handleError (frames.foldl receiveLoopBody (s, [])).1
                (.other "WebSocketException" msg)).2) = 0 := by
          unfold decodeErrorCount
          rw [List.filter_cons, List.filter_cons]
          have h := decodeErrorCount_handleError
            (frames.foldl receiveLoopBody (s, [])).1
            (.other "WebSocketException" msg)
          unfold decodeErrorCount at h
          exact h
        rw [htail]
        rw [Nat.add_zero]
  | cancelled =>
      refine ⟨rfl, ?_, ?_⟩
      · show framesDelivered ((frames.foldl receiveLoopBody (s, [])).2
            ++ [Effect.logDebug "WebSocket receive task cancelled"])
          = frames.filterMap frameResponse
        rw [framesDelivered_append, hbody1]
        simp [framesDelivered]
      · show decodeErrorCount ((frames.foldl receiveLoopBody (s, [])).2
            ++ [Effect.logDebug "WebSocket receive task cancelled"])
          = garbageCount frames
        rw [decodeErrorCount_append, hbody2]
        rfl

/-! ### Lemmas for `close` -/

theorem find?_keyPreserving {κ α : Type} [DecidableEq κ]
    (g : κ × α → κ × α) (hg : ∀ p, (g p).1 = p.1)
    (d : List (κ × α)) (k : κ) :
    (d.map g).find? (fun p => p.1 = k)
      = Option.map g (d.find? (fun p => p.1 = k)) := by
  induction d with
  | nil => rfl
  | cons x d ih =>
      by_cases hx : x.1 = k
      · simp [List.find?_cons, hg, hx]
      · simp [List.find?_cons, hg, hx, ih]

theorem close_of_closed (s : ClientState) (b : Bool) (h : s.closed = true) :
    close s b = (s, []) := by
  unfold close
  rw [if_pos h]

theorem close_pending (s : ClientState) (b : Bool) (h : s.closed = false) :
    (close s b).1.pending_requests = [] := by
  unfold close
  rw [if_neg (by rw [h]; exact Bool.false_ne_true)]

theorem close_listeners (s : ClientState) (b : Bool) (h : s.closed = false) :
    (close s b).1.event_listeners = [] := by
  unfold close
  rw [if_neg (by rw [h]; exact Bool.false_ne_true)]

theorem close_closed (s : ClientState) (b : Bool) (h : s.closed = false) :
    (close s b).1.closed = true := by
  unfold close
  rw [if_neg (by rw [h]; exact Bool.false_ne_true)]
  cases b with
  | true =>
      show (client_disconnect { s with closed := true }).1.closed = true
      rw [client_disconnect_closed]
  | false => rfl

/-- Cancelling the pending futures inside `close`: the mapped table marks
every not-done future referenced by the pending table as cancelled. -/
theorem close_cancels_core (pending : List (String × Nat))
    (futures : List (Nat × FutureCell)) (p : String × Nat)
    (hp : p ∈ pending)
    (hc : dictGet futures p.2 = some FutureCell.unresolved) :
    dictGet (futures.map (fun q =>
        if (pending.any (fun e => e.2 = q.1)) && !q.2.done then
          (q.1, FutureCell.cancelled)
        else q)) p.2
      = some FutureCell.cancelled := by
  have hg : ∀ q : Nat × FutureCell,
      ((fun q => if (pending.any (fun e => e.2 = q.1)) && !q.2.done then
          (q.1, FutureCell.cancelled) else q) q).1 = q.1 := by
    intro q
    dsimp only
    split <;> rfl
  unfold dictGet at hc ⊢
  rw [find?_keyPreserving _ hg]
  cases hf : futures.find? (fun q => q.1 = p.2) with
  | none =>
      rw [hf] at hc
      cases hc
  | some q =>
      rw [hf] at hc
      have hq2 : q.2 = FutureCell.unresolved := by
        injection hc
      have hq1 : q.1 = p.2 := by
        simpa using List.find?_some hf
      have hcond : ((pending.any (fun e => e.2 = q.1)) && !q.2.done) = true := by
        rw [hq2, hq1]
        have hany : pending.any (fun e => e.2 = p.2) = true :=
          List.any_eq_true.mpr ⟨p, hp, by simp⟩
        rw [hany]
        rfl
      simp only [Option.map_some']
      rw [if_pos hcond]

/-- C6: `close()` is idempotent — once the first `close` has run, a second
call returns immediately with no state change and no effects; the first
`close` empties the pending table and the listener registry, and every
request that was pending with an unresolved future is cancelled, which the
waiting caller observes as `CancelledError`. -/
theorem C6_close_idempotent_and_cancels_pending (s : ClientState)
    (b b2 : Bool) (h : s.closed = false) :
    close (close s b).1 b2 = ((close s b).1, [])
    ∧ (close s b).1.pending_requests = []
    ∧ (close s b).1.event_listeners = []
    ∧ (∀ p ∈ s.pending_requests,
        dictGet s.futures p.2 = some FutureCell.unresolved →
        dictGet (close s b).1.futures p.2 = some FutureCell.cancelled
        ∧ awaitFuture FutureCell.cancelled = some CallerOutcome.cancelledError) := by
  refine ⟨close_of_closed _ b2 (close_closed s b h), close_pending s b h,
    close_listeners s b h, ?_⟩
  intro p hp hc
  refine ⟨?_, rfl⟩
  unfold close
  rw [if_neg (by rw [h]; exact Bool.false_ne_true)]
  cases b with
  | true =>
      show dictGet
        ((client_disconnect { s with closed := true }).1.futures.map (fun q =>
          if (((client_disconnect { s with closed := true }).1.pending_requests.any
                (fun e => e.2 = q.1)) && !q.2.done) = true then
            (q.1, FutureCell.cancelled)
          else q)) p.2
        = some FutureCell.cancelled
      rw [client_disconnect_futures, client_disconnect_pending]
      exact close_cancels_core _ _ p hp hc
  | false =>
      show dictGet
        (({ s with closed := true }).futures.map (fun q : Nat × FutureCell =>
          if ((({ s with closed := true }).pending_requests.any
                (fun e => e.2 = q.1)) && !q.2.done) = true then
            (q.1, FutureCell.cancelled)
          else q)) p.2
        = some FutureCell.cancelled
      exact close_cancels_core _ _ p hp hc

/-- Witness for C6 at the concrete connected client `c1State` with two
in-flight requests. -/
theorem C6_witness :
    close (close c1State true).1 true = ((close c1State true).1, [])
    ∧ (close c1State true).1.pending_requests = []
    ∧ (close c1State true).1.event_listeners = []
    ∧ dictGet (close c1State true).1.futures 0 = some FutureCell.cancelled := by
  have h := C6_close_idempotent_and_cancels_pending c1State true true rfl
  refine ⟨h.1, h.2.1, h.2.2.1, ?_⟩
  exact (h.2.2.2 ("req-a", 0) (by decide) rfl).1

/-- C4, counterexample: in the exact scenario of the claim (`timeout=30s`,
`retryAttempts=3` in the configuration, two transient network failures
followed by a successful attempt), the caller does receive the successful
outcome — but `errors_total` ends at 2, not 0: each failed attempt invokes
the `on_error` hook, which is the client's `_handle_error`, which
increments the error counter and emits `error-occurred`. -/
theorem C4_counterexample :
    c3State.config.transport.timeout = 30
    ∧ c3State.config.transport.retry_attempts = 3
    ∧ c4Run.2.2 = .ok ()
    ∧ c4Run.1.metrics.errors_total = 2 := ⟨rfl, rfl, rfl, rfl⟩

/-- C4, amended: `HttpTransport.send` retries transient failures with
exponential backoff, but up to the attempt count hardcoded in the `@retry`
decorator (`stop_after_attempt(3)`) rather than the configured
`retryAttempts`; in the scenario the third attempt succeeds, the response
resolves the caller's pending future, the trace shows backoff sleeps of 1s
and 2s between the attempts, and `errors_total` ends at 2 because every
failed attempt is routed through `_handle_error`. -/
theorem C4_retry_scenario_amended :
    sendStopAfterAttempt = 3
    ∧ c4Run.2.2 = .ok ()
    ∧ dictGet c4Run.1.futures 0 = some (.result c4Wire)
    ∧ c4Run.1.metrics.errors_total = 2
    ∧ Effect.sleepSeconds 1 ∈ c4Run.2.1
    ∧ Effect.sleepSeconds 2 ∈ c4Run.2.1 := by
  have htrace : c4Run.2.1 =
      [Effect.transportPost c4Request,
       Effect.onErrorHook "ClientConnectionError" "Connection reset by peer",
       Effect.logError "Client error: Connection reset by peer",
       Effect.sleepSeconds 1,
       Effect.transportPost c4Request,
       Effect.onErrorHook "ClientConnectionError" "Connection reset by peer",
       Effect.logError "Client error: Connection reset by peer",
       Effect.sleepSeconds 2,
       Effect.transportPost c4Request,
       Effect.onMessageHook c4Wire] := rfl
  refine ⟨rfl, rfl, rfl, rfl, ?_, ?_⟩
  · rw [htrace]
    simp
  · rw [htrace]
    simp

/-- C1: with distinct-id in-flight requests (the well-formedness
`PendingInv` carries the spec's id-uniqueness invariant) and a batch of
distinct-id responses each matching some pending entry, processing the
batch in whatever order it arrives resolves each matching entry's future
exactly once, with exactly its own response's outcome — entries for which
no response arrived stay unresolved — and registering a new request whose
id is not in flight preserves every other caller's pending entry. -/
theorem C1_distinct_ids_resolve_exactly_once_to_own_caller (s : ClientState)
    (rs : List MCPResponse)
    (hinv : PendingInv s)
    (hids : (rs.map MCPResponse.id).Nodup)
    (hcover : ∀ r ∈ rs, dictGet s.pending_requests r.id ≠ none) :
    (∀ p ∈ s.pending_requests,
      (∀ r ∈ rs, r.id = p.1 →
        dictGet (processResponses s rs).futures p.2 = some (responseOutcome r))
      ∧ ((∀ r ∈ rs, r.id ≠ p.1) →
        dictGet (processResponses s rs).futures p.2
          = some FutureCell.unresolved))
    ∧ (∀ (req : MCPRequest) (out : ClientState × List Effect × MCPRequest × Nat),
        dictGet s.pending_requests req.id = none →
        send_request_start s req = Except.ok out →
        ∀ p ∈ s.pending_requests, p ∈ out.1.pending_requests) := by
  refine ⟨processResponses_resolves rs s hinv hids hcover, ?_⟩
  intro req out hfresh hok p hp
  rw [send_request_start_pending s req out hok]
  have hfresh2 : dictGet s.pending_requests (enrich_request s req).id = none := by
    rw [enrich_request_id]
    exact hfresh
  rw [dictSet_of_not_mem _ hfresh2]
  exact List.mem_append_left _ hp

/-- Witness for C1: two in-flight requests of `c1State` whose responses
arrive in the opposite order both resolve to their own callers. -/
theorem C1_witness :
    dictGet (processResponses c1State [c1RespB, c1RespA]).futures 0
        = some (responseOutcome c1RespA)
    ∧ dictGet (processResponses c1State [c1RespB, c1RespA]).futures 1
        = some (responseOutcome c1RespB) := by
  have hinv : PendingInv c1State := by
    refine ⟨by decide, by decide, ?_⟩
    intro p hp
    fin_cases hp <;> rfl
  have h := C1_distinct_ids_resolve_exactly_once_to_own_caller c1State
    [c1RespB, c1RespA] hinv (by decide) (by decide)
  constructor
  · exact (h.1 ("req-a", 0) (by decide)).1 c1RespA
      (List.mem_cons_of_mem _ (List.mem_cons_self _ _)) rfl
  · exact (h.1 ("req-b", 1) (by decide)).1 c1RespB
      (List.mem_cons_self _ _) rfl

/-- Witness for C7's amended claim at the concrete both-set response. -/
theorem C7_witness : c7Both.is_success = true ↔ c7Both.error = none :=
  C7_success_iff_no_error c7Both

/-- Witness for C9 at a concrete frame batch: a garbage frame between two
decodable frames is reported once through `on_error` while both responses
are still delivered, and the connected flag ends cleared. -/
theorem C9_witness :
    (WebSocketTransport.receiveMessages sampleState true
        [Frame.decodable c1RespA, Frame.garbage "not json",
         Frame.decodable c1RespB] LoopExit.socketClosed).1.transport_connected
      = false
    ∧ framesDelivered (WebSocketTransport.receiveMessages sampleState true
        [Frame.decodable c1RespA, Frame.garbage "not json",
         Frame.decodable c1RespB] LoopExit.socketClosed).2
      = [c1RespA, c1RespB]
    ∧ decodeErrorCount (WebSocketTransport.receiveMessages sampleState true
        [Frame.decodable c1RespA, Frame.garbage "not json",
         Frame.decodable c1RespB] LoopExit.socketClosed).2
      = 1 := by
  have h := C9_receive_loop_survives_bad_frames_and_clears_flag sampleState
    [Frame.decodable c1RespA, Frame.garbage "not json",
     Frame.decodable c1RespB] LoopExit.socketClosed
  refine ⟨h.1, ?_, ?_⟩
  · rw [h.2.1]
    rfl
  · rw [h.2.2]
    rfl

end MCPv2
